import Mathlib

/-!
Verification development for the valora sketch runtime.

Source files embedded:
* `src/paint.rs` — the `Paint` trait with its `Filled` / `Stroked` decorators and the
  blanket implementation for restartable path-event producers.
* `src/sketch.rs` — the `Canvas` draw queue and the `sketch` execution loop
  (reseed handling, draw/submit, step, capture, frame counting).

External collaborators (the windowing backend, the GPU pipeline, the tessellation
backend, the entropy source, the filesystem) are modelled as oracles: finite lists or
functions supplying each call's outcome. Machine integers (`usize`) are modelled as
`Nat` (the loop performs no overflowing arithmetic on them); values the core merely
passes through (point coordinates, stroke thickness f32) are modelled as opaque type
parameters.
-/

namespace Valora

/-! ### Model of `src/paint.rs`

The `Canvas` type used by `paint.rs` lives in `crate::canvas`, which is not part of
the source tree. Modelled from the spec: the spec describes it as a path-building
surface exposing move-to / line-to / quadratic-to / cubic-to / close operations, an
active stroke thickness, and fill / stroke commits. We model it as the recorded trace
of operations performed on it together with the active stroke thickness.

`Pt` is the (opaque) point type and `Th` the (opaque) thickness type. -/

/-- A lyon line segment; `paint.rs` only reads its `to` field. -/
structure LineSegment (Pt : Type) where
  fr : Pt
  toP : Pt
deriving DecidableEq

/-- A lyon quadratic bezier segment; `paint.rs` reads `ctrl` and `to`. -/
structure QuadSeg (Pt : Type) where
  fr : Pt
  ctrl : Pt
  toP : Pt
deriving DecidableEq

/-- A lyon cubic bezier segment; `paint.rs` reads `ctrl1`, `ctrl2` and `to`. -/
structure CubicSeg (Pt : Type) where
  fr : Pt
  ctrl1 : Pt
  ctrl2 : Pt
  toP : Pt
deriving DecidableEq

/-- The lyon `PathEvent` type, as matched by the blanket `Paint` implementation. -/
inductive PathEvent (Pt : Type) where
  | moveTo (p : Pt)
  | line (l : LineSegment Pt)
  | quadratic (q : QuadSeg Pt)
  | cubic (c : CubicSeg Pt)
  | close (l : LineSegment Pt)
deriving DecidableEq

/-- One operation performed on the path-building canvas of `crate::canvas`. -/
inductive CanvasOp (Pt Th : Type) where
  | moveTo (p : Pt)
  | lineTo (p : Pt)
  | quadraticTo (ctrl toP : Pt)
  | cubicTo (ctrl1 ctrl2 toP : Pt)
  | close
  | setStrokeThickness (t : Th)
  | fill
  | stroke
deriving DecidableEq

/-- Modelled from the spec: the `crate::canvas::Canvas` painting surface (not in the
source tree) — a path-building surface with an active stroke thickness; we record the
trace of operations issued to it. -/
structure PCanvas (Pt Th : Type) where
  ops : List (CanvasOp Pt Th)
  strokeThickness : Th
deriving DecidableEq

def PCanvas.move_to (c : PCanvas Pt Th) (p : Pt) : PCanvas Pt Th :=
  { c with ops := c.ops ++ [.moveTo p] }

def PCanvas.line_to (c : PCanvas Pt Th) (p : Pt) : PCanvas Pt Th :=
  { c with ops := c.ops ++ [.lineTo p] }

def PCanvas.quadratic_to (c : PCanvas Pt Th) (ctrl toP : Pt) : PCanvas Pt Th :=
  { c with ops := c.ops ++ [.quadraticTo ctrl toP] }

def PCanvas.cubic_to (c : PCanvas Pt Th) (ctrl1 ctrl2 toP : Pt) : PCanvas Pt Th :=
  { c with ops := c.ops ++ [.cubicTo ctrl1 ctrl2 toP] }

def PCanvas.close (c : PCanvas Pt Th) : PCanvas Pt Th :=
  { c with ops := c.ops ++ [.close] }

def PCanvas.set_stroke_thickness (c : PCanvas Pt Th) (t : Th) : PCanvas Pt Th :=
  { ops := c.ops ++ [.setStrokeThickness t], strokeThickness := t }

def PCanvas.fill (c : PCanvas Pt Th) : PCanvas Pt Th :=
  { c with ops := c.ops ++ [.fill] }

def PCanvas.stroke (c : PCanvas Pt Th) : PCanvas Pt Th :=
  { c with ops := c.ops ++ [.stroke] }

/-- The closed set of `Paint` values of `src/paint.rs`: a restartable path-event
producer (`impl<P: Iterator<Item = PathEvent> + Clone> Paint for P`, its event
sequence), `Filled<D>`, and `Stroked<D> { element, thickness }`. -/
inductive Paint (Pt Th : Type) where
  | raw (events : List (PathEvent Pt))
  | filled (d : Paint Pt Th)
  | stroked (element : Paint Pt Th) (thickness : Th)
deriving DecidableEq

/-- The body of the `for_each` closure in the blanket implementation: dispatch one
path event to the corresponding canvas operation. -/
def applyEvent (c : PCanvas Pt Th) : PathEvent Pt → PCanvas Pt Th
  | .line l => c.line_to l.toP
  | .quadratic q => c.quadratic_to q.ctrl q.toP
  | .cubic cu => c.cubic_to cu.ctrl1 cu.ctrl2 cu.toP
  | .moveTo p => c.move_to p
  | .close _ => c.close

/-- Rust `Paint::paint(&self, canvas)`: the three implementations of `src/paint.rs`. -/
def paintOn : Paint Pt Th → PCanvas Pt Th → PCanvas Pt Th
  | .raw evs, c => evs.foldl applyEvent c
  | .filled d, c => (paintOn d c).fill
  | .stroked d t, c => ((paintOn d c).set_stroke_thickness t).stroke

/-- The canvas operation a single path event is replayed as. -/
def eventOp : PathEvent Pt → CanvasOp Pt Th
  | .line l => .lineTo l.toP
  | .quadratic q => .quadraticTo q.ctrl q.toP
  | .cubic cu => .cubicTo cu.ctrl1 cu.ctrl2 cu.toP
  | .moveTo p => .moveTo p
  | .close _ => .close

/-- Counts the terminal style commits (fill or stroke) in a canvas trace. -/
def countCommits : List (CanvasOp Pt Th) → Nat
  | [] => 0
  | .fill :: rest => countCommits rest + 1
  | .stroke :: rest => countCommits rest + 1
  | _ :: rest => countCommits rest

/-- Number of decorator layers of a `Paint` value (each issues one commit). -/
def commitLayers : Paint Pt Th → Nat
  | .raw _ => 0
  | .filled d => commitLayers d + 1
  | .stroked d _ => commitLayers d + 1

/-! ### Model of `src/sketch.rs`

`Sh` is the (opaque) shader/style type, `Te` the (opaque) tessellation type, `E` the
(opaque) error type of `errors::Result`, `D` a drawable type with a fallible
`tessellate` operation, `S` the user sketch state. `StdRng` is only ever constructed
from a seed by the loop and handed to the sketch, so it is modelled by the seed it
was initialized from. -/

/-- Model of `rand::StdRng`, represented by the seed the loop built it from. -/
def StdRng : Type := Nat
deriving DecidableEq

/-- Rust `StdRng::from_seed(&[seed])`. -/
def StdRng.from_seed (s : Nat) : StdRng := s

/-- Model of `glium::glutin::WindowEvent`, keeping the one constructor the loop inspects;
all other event kinds are collapsed into an opaque tag. -/
inductive WindowEvent where
  | receivedCharacter (c : Char)
  | other (tag : Nat)
deriving DecidableEq

/-- The predicate of the `find` closure in the loop: matches exactly
`WindowEvent::ReceivedCharacter('r')`. -/
def isReseedEvent : WindowEvent → Bool
  | .receivedCharacter 'r' => true
  | _ => false

/-- Rust `SketchCfg { size, root_frame_filename, seed }`. -/
structure SketchCfg where
  size : Nat
  root_frame_filename : Option String
  seed : Option Nat
deriving DecidableEq

/-- Rust `SketchContext { cfg, frame, rng, current_seed }`. -/
structure SketchContext where
  cfg : SketchCfg
  frame : Nat
  rng : StdRng
  current_seed : Nat
deriving DecidableEq

/-- The `Canvas` draw queue of `src/sketch.rs`: a vector of
`(&Shader, Tessellation)` pairs. -/
structure Canvas (Sh Te : Type) where
  queue : List (Sh × Te)
deriving DecidableEq

/-- Rust `Canvas::new()`. -/
def Canvas.new : Canvas Sh Te := ⟨[]⟩

/-- Rust `Canvas::draw(&mut self, shader, t)`: evaluates `t.tessellate(shader)` first; on
success pushes the pair onto the queue and returns `Ok(())`, on failure propagates
the error and leaves the queue untouched (`&mut self` modelled by returning the
updated canvas alongside the call's result). `tessellate` is the oracle for the
`Tessellate` bound of the drawable type `D`. -/
def Canvas.draw (tessellate : D → Sh → Except E Te) (c : Canvas Sh Te) (shader : Sh)
    (t : D) : Canvas Sh Te × Except E Unit :=
  match tessellate t shader with
  | .error e => (c, .error e)
  | .ok v => (⟨c.queue ++ [(shader, v)]⟩, .ok ())

/-- Rust `Canvas::drain(self)`: consumes the canvas and returns the queue by value. -/
def Canvas.drain (c : Canvas Sh Te) : List (Sh × Te) := c.queue

/-- A sequence of `Canvas::draw` calls, stopping at the first error as a caller
using `?` would. -/
def drawAll (tessellate : D → Sh → Except E Te) :
    Canvas Sh Te → List (Sh × D) → Canvas Sh Te × Except E Unit
  | c, [] => (c, .ok ())
  | c, (shader, t) :: rest =>
    match Canvas.draw tessellate c shader t with
    | (c', .ok _) => drawAll tessellate c' rest
    | (c', .error e) => (c', .error e)

/-- The capabilities of a `Sketch` value: `Sketch::draw`, `Sketch::step` and
`Seed::seed`, each fallible as in the source. `draw` returns the canvas the sketch
built for this frame. -/
structure SketchImpl (S E Sh Te : Type) where
  draw : S → SketchContext → Except E (Canvas Sh Te)
  step : S → SketchContext → List WindowEvent → Except E (Option S)
  seed : S → SketchContext → Except E S

/-- A sketch whose three operations are total (never return `Err`). -/
def pureImpl (drawF : S → SketchContext → Canvas Sh Te)
    (stepF : S → SketchContext → List WindowEvent → Option S)
    (seedF : S → SketchContext → S) : SketchImpl S E Sh Te :=
  ⟨fun s c => .ok (drawF s c), fun s c ev => .ok (stepF s c ev), fun s c => .ok (seedF s c)⟩

/-- The outcome of one `pipeline.events()` call, plus the oracles for the external
calls the resulting iteration would make (`pipeline.draw`, `fs::create_dir_all`,
`pipeline.save_frame`). -/
structure IterEnv (E : Type) where
  events : List WindowEvent
  submitRes : Except E Unit
  mkdirRes : Except E Unit
  saveRes : Except E Unit

/-- One result of `pipeline.events()`: `Err(e)`, `Ok(None)` (stream closed), or
`Ok(Some((pipeline, events)))` together with that iteration's oracles. -/
inductive CycleOutcome (E : Type) where
  | err (e : E)
  | closed
  | batch (env : IterEnv E)

/-- Everything observable about a run: the `(context-at-draw, drained queue)` pairs
submitted to `pipeline.draw` in order, the capture directories created, the
`(directory, frame)` pairs passed to `pipeline.save_frame` in order, the run's
returned `Result<()>`, and (model instrumentation) the loop's context when it
returned. -/
structure RunResult (E Sh Te : Type) where
  submissions : List (SketchContext × List (Sh × Te))
  dirs : List String
  captures : List (String × Nat)
  result : Except E Unit
  finalCtx : SketchContext

/-- Rust's `format!("{:14}", n)` for an unsigned integer: minimum width 14,
numeric values right-aligned, space-filled. -/
def pad14 (s : String) : String :=
  if s.length < 14 then String.mk (List.replicate (14 - s.length) ' ') ++ s else s

/-- The `saves_dir` string `format!("{}/{:14}/", root_frame_filename, current_seed)`. -/
def savesDir (root : String) (seed : Nat) : String :=
  root ++ "/" ++ pad14 (toString seed) ++ "/"

/-- The context mutation performed on a reseed: `current_seed` and `rng` are
wholesale-replaced from a fresh `random()` draw and `frame` is reset to 0. -/
def reseedCtx (ctx : SketchContext) (ns : Nat) : SketchContext :=
  { ctx with
      current_seed := ns,
      rng := StdRng.from_seed ns,
      frame := 0 }

/-- The `while let Ok(Some(..))` loop of `sketch`, driven by the successive results
of `pipeline.events()` (an exhausted oracle list is read as a closed stream).
`eIdx` indexes the external entropy stream backing `rand::random()`. -/
def runLoop (impl : SketchImpl S E Sh Te) (entropy : Nat → Nat) :
    List (CycleOutcome E) → SketchContext → S → Nat → RunResult E Sh Te
  | [], ctx, _, _ => ⟨[], [], [], .ok (), ctx⟩
  | .closed :: _, ctx, _, _ => ⟨[], [], [], .ok (), ctx⟩
  | .err e :: _, ctx, _, _ => ⟨[], [], [], .error e, ctx⟩
  | .batch env :: rest, ctx, s, eIdx =>
    let reseeded : Except (E × SketchContext) (SketchContext × S × Nat) :=
      if env.events.any isReseedEvent then
        let ctxr := reseedCtx ctx (entropy eIdx)
        match impl.seed s ctxr with
        | .error e => .error (e, ctxr)
        | .ok s' => .ok (ctxr, s', eIdx + 1)
      else .ok (ctx, s, eIdx)
    match reseeded with
    | .error (e, ctxr) => ⟨[], [], [], .error e, ctxr⟩
    | .ok (ctx', s', eIdx') =>
      match impl.draw s' ctx' with
      | .error e => ⟨[], [], [], .error e, ctx'⟩
      | .ok canvas =>
        match env.submitRes with
        | .error e => ⟨[], [], [], .error e, ctx'⟩
        | .ok _ =>
          let sub := (ctx', canvas.drain)
          match impl.step s' ctx' env.events with
          | .error e => ⟨[sub], [], [], .error e, ctx'⟩
          | .ok sOpt =>
            match ctx'.cfg.root_frame_filename with
            | none =>
              let ctx'' := { ctx' with frame := ctx'.frame + 1 }
              match sOpt with
              | none => ⟨[sub], [], [], .ok (), ctx''⟩
              | some sNext =>
                let r := runLoop impl entropy rest ctx'' sNext eIdx'
                ⟨sub :: r.submissions, r.dirs, r.captures, r.result, r.finalCtx⟩
            | some root =>
              let dir := savesDir root ctx'.current_seed
              match env.mkdirRes with
              | .error e => ⟨[sub], [], [], .error e, ctx'⟩
              | .ok _ =>
                match env.saveRes with
                | .error e => ⟨[sub], [dir], [], .error e, ctx'⟩
                | .ok _ =>
                  let ctx'' := { ctx' with frame := ctx'.frame + 1 }
                  match sOpt with
                  | none => ⟨[sub], [dir], [(dir, ctx'.frame)], .ok (), ctx''⟩
                  | some sNext =>
                    let r := runLoop impl entropy rest ctx'' sNext eIdx'
                    ⟨sub :: r.submissions, dir :: r.dirs,
                      (dir, ctx'.frame) :: r.captures, r.result, r.finalCtx⟩

/-- Rust `pub fn sketch<S: Sketch>(cfg, sketch) -> Result<()>` (pipeline creation assumed
successful; its failure would abort before the loop). The initial seed is
`cfg.seed.unwrap_or(random())`; when `cfg.seed` is absent the first entropy value is
consumed for it. -/
def sketchRun (impl : SketchImpl S E Sh Te) (entropy : Nat → Nat)
    (cycles : List (CycleOutcome E)) (cfg : SketchCfg) (s : S) : RunResult E Sh Te :=
  let current_seed := cfg.seed.getD (entropy 0)
  let eIdx : Nat := match cfg.seed with | some _ => 0 | none => 1
  runLoop impl entropy cycles
    ⟨cfg, 0, StdRng.from_seed current_seed, current_seed⟩ s eIdx

/-! ### Helper lemmas about the paint model -/

theorem applyEvent_ops (c : PCanvas Pt Th) (e : PathEvent Pt) :
    (applyEvent c e).ops = c.ops ++ [eventOp e] := by
  cases e <;> rfl

theorem applyEvent_strokeThickness (c : PCanvas Pt Th) (e : PathEvent Pt) :
    (applyEvent c e).strokeThickness = c.strokeThickness := by
  cases e <;> rfl

theorem foldl_applyEvent_ops (evs : List (PathEvent Pt)) (c : PCanvas Pt Th) :
    (evs.foldl applyEvent c).ops = c.ops ++ evs.map eventOp := by
  induction evs generalizing c with
  | nil => simp
  | cons e rest ih =>
    simp only [List.foldl_cons, List.map_cons, ih, applyEvent_ops, List.append_assoc,
      List.cons_append, List.nil_append]

theorem foldl_applyEvent_strokeThickness (evs : List (PathEvent Pt)) (c : PCanvas Pt Th) :
    (evs.foldl applyEvent c).strokeThickness = c.strokeThickness := by
  induction evs generalizing c with
  | nil => rfl
  | cons e rest ih => simp only [List.foldl_cons, ih, applyEvent_strokeThickness]

theorem countCommits_append (l₁ l₂ : List (CanvasOp Pt Th)) :
    countCommits (l₁ ++ l₂) = countCommits l₁ + countCommits l₂ := by
  induction l₁ with
  | nil => simp [countCommits]
  | cons op rest ih => cases op <;> simp [countCommits, ih] <;> omega

theorem countCommits_eventOps (evs : List (PathEvent Pt)) :
    countCommits (evs.map (eventOp : PathEvent Pt → CanvasOp Pt Th)) = 0 := by
  induction evs with
  | nil => rfl
  | cons e rest ih => cases e <;> simpa [eventOp, countCommits] using ih

/-! ### Claim theorems about the paint model -/

/-- C5: for every inner paint value `d`, `Filled(d).paint` first paints `d` and then
issues exactly one fill commit (and no stroke commit of its own), and
`Stroked { element := d, thickness := t }.paint` first paints `d`, then sets the
active stroke thickness to `t`, and then issues exactly one stroke commit (and no
fill commit of its own), the thickness being set immediately before that stroke
commit. -/
theorem filled_stroked_commits (Pt Th : Type) (d : Paint Pt Th) (t : Th)
    (c : PCanvas Pt Th) :
    (paintOn (.filled d) c).ops = (paintOn d c).ops ++ [.fill] ∧
    (paintOn (.stroked d t) c).ops
      = (paintOn d c).ops ++ [.setStrokeThickness t, .stroke] := by
  constructor
  · rfl
  · simp [paintOn, PCanvas.stroke, PCanvas.set_stroke_thickness]

/-- C9: painting a restartable path-event producer replays each of its events in
iterator order, one canvas operation per event with no deduplication or batching
(the trace grows by exactly the event-wise image of the sequence), and the producer
is not consumed: replaying it a second time appends the identical operation sequence
again. -/
theorem raw_paint_replays (Pt Th : Type) (evs : List (PathEvent Pt))
    (c : PCanvas Pt Th) :
    (paintOn (.raw evs) c).ops = c.ops ++ evs.map eventOp ∧
    (paintOn (.raw evs) (paintOn (.raw evs) c)).ops
      = c.ops ++ evs.map eventOp ++ evs.map eventOp := by
  refine ⟨foldl_applyEvent_ops evs c, ?_⟩
  simp [paintOn, foldl_applyEvent_ops]

/-- C10: after `Stroked { element := d, thickness := t }.paint`, the canvas's active
stroke thickness remains `t`; nothing saves or restores the previous value, so the
setting persists across later raw painting (which never touches the thickness) and
the only operation between the thickness write and the end of the stroked paint is
its own stroke commit. -/
theorem stroked_thickness_persists (Pt Th : Type) (d : Paint Pt Th) (t : Th)
    (c : PCanvas Pt Th) (evs : List (PathEvent Pt)) :
    (paintOn (.stroked d t) c).strokeThickness = t ∧
    (paintOn (.raw evs) (paintOn (.stroked d t) c)).strokeThickness = t ∧
    (paintOn (.raw evs) (paintOn (.stroked d t) c)).ops
      = (paintOn d c).ops ++ [.setStrokeThickness t, .stroke] ++ evs.map eventOp := by
  refine ⟨rfl, ?_, ?_⟩
  · simp [paintOn, foldl_applyEvent_strokeThickness, PCanvas.stroke,
      PCanvas.set_stroke_thickness]
  · simp [paintOn, foldl_applyEvent_ops, PCanvas.stroke, PCanvas.set_stroke_thickness]

/-- C7 counterexample: `Filled<Stroked<D>>` is accepted by the composition model
(it is a well-formed `Paint` value) and painting it issues BOTH a stroke commit and
a fill commit — two terminal style commits in one draw call — rather than being
rejected. -/
theorem nested_decorators_paint_both :
    (paintOn (Paint.filled (Paint.stroked (Paint.raw ([] : List (PathEvent Unit)))
        (1 : Int))) ⟨[], 0⟩).ops
      = [.setStrokeThickness 1, .stroke, .fill] ∧
    countCommits (paintOn (Paint.filled (Paint.stroked
        (Paint.raw ([] : List (PathEvent Unit))) (1 : Int))) ⟨[], 0⟩).ops = 2 := by
  exact ⟨rfl, rfl⟩

/-- C7 (amended): nested fill/stroke decorators are accepted, not rejected; painting
any `Paint` value issues exactly one terminal style commit per decorator layer, so a
single draw call issues at most one terminal commit precisely when decorators are
not nested. -/
theorem paint_commits_eq_layers (Pt Th : Type) (p : Paint Pt Th) (c : PCanvas Pt Th) :
    countCommits (paintOn p c).ops = countCommits c.ops + commitLayers p := by
  induction p generalizing c with
  | raw evs =>
    simp [paintOn, commitLayers, foldl_applyEvent_ops, countCommits_append,
      countCommits_eventOps]
  | filled d ih =>
    simp [paintOn, commitLayers, PCanvas.fill, countCommits_append, countCommits, ih]
    omega
  | stroked d t ih =>
    simp [paintOn, commitLayers, PCanvas.stroke, PCanvas.set_stroke_thickness,
      countCommits_append, countCommits, ih]
    omega

/-! ### Claim theorems about the `Canvas` draw queue of `src/sketch.rs` -/

/-- An iteration environment whose external calls all succeed. -/
def okEnv (evs : List WindowEvent) : IterEnv E := ⟨evs, .ok (), .ok (), .ok ()⟩

theorem drawAll_ok_append (tessellate : D → Sh → Except E Te) (tv : Sh × D → Te)
    (calls : List (Sh × D)) (h : ∀ p ∈ calls, tessellate p.2 p.1 = .ok (tv p))
    (c : Canvas Sh Te) :
    drawAll tessellate c calls
      = (⟨c.queue ++ calls.map (fun p => (p.1, tv p))⟩, .ok ()) := by
  induction calls generalizing c with
  | nil => simp [drawAll]
  | cons p rest ih =>
    obtain ⟨shader, t⟩ := p
    have hp := h (shader, t) (List.mem_cons_self _ _)
    simp only [drawAll, Canvas.draw, hp]
    rw [ih (fun q hq => h q (List.mem_cons_of_mem _ hq))]
    simp

/-- C8: `Canvas::draw` tessellates the drawable against the style immediately;
if tessellation succeeds it appends exactly one `(style, tessellation)` entry at the
end of the queue and returns `Ok`, and if tessellation fails it returns that error
and leaves the queue unchanged. -/
theorem canvas_draw_spec (D Sh Te E : Type) (tessellate : D → Sh → Except E Te)
    (c : Canvas Sh Te) (shader : Sh) (t : D) :
    (∀ v, tessellate t shader = .ok v →
      Canvas.draw tessellate c shader t = (⟨c.queue ++ [(shader, v)]⟩, .ok ())) ∧
    (∀ e, tessellate t shader = .error e →
      Canvas.draw tessellate c shader t = (c, .error e)) := by
  constructor <;> intro x hx <;> simp [Canvas.draw, hx]

/-- C8 witness: concrete instances of both branches of `canvas_draw_spec`. -/
theorem canvas_draw_spec_witness :
    Canvas.draw (fun (_ : Unit) (_ : Unit) => (Except.ok 5 : Except String Nat))
        ⟨[((), 3)]⟩ () () = (⟨[((), 3), ((), 5)]⟩, .ok ()) ∧
    Canvas.draw (fun (_ : Unit) (_ : Unit) => (Except.error "t" : Except String Nat))
        ⟨[((), 3)]⟩ () () = (⟨[((), 3)]⟩, .error "t") :=
  ⟨(canvas_draw_spec Unit Unit Nat String _ ⟨[((), 3)]⟩ () ()).1 5 rfl,
   (canvas_draw_spec Unit Unit Nat String _ ⟨[((), 3)]⟩ () ()).2 "t" rfl⟩

/-- C3: for every sequence of successful `draw` calls on a fresh canvas, `drain`
returns exactly one `(style, tessellation)` entry per draw call, in the exact order
the draw calls were made, by value; a fresh canvas (the only way to observe an
emptied queue, since `drain` consumes the canvas) drains to the empty sequence. -/
theorem canvas_drain_order (D Sh Te E : Type) (tessellate : D → Sh → Except E Te)
    (tv : Sh × D → Te) (calls : List (Sh × D))
    (h : ∀ p ∈ calls, tessellate p.2 p.1 = .ok (tv p)) :
    (drawAll tessellate Canvas.new calls).2 = .ok () ∧
    (drawAll tessellate Canvas.new calls).1.drain
      = calls.map (fun p => (p.1, tv p)) ∧
    (Canvas.new : Canvas Sh Te).drain = [] := by
  rw [drawAll_ok_append tessellate tv calls h Canvas.new]
  exact ⟨rfl, by simp [Canvas.drain, Canvas.new], rfl⟩

/-- C3 witness: two successful draws drain in call order; a fresh canvas is empty. -/
theorem canvas_drain_order_witness :
    (drawAll (fun (d : Nat) (_ : Unit) => (Except.ok (d + 1) : Except String Nat))
        Canvas.new [((), 10), ((), 20)]).2 = .ok () ∧
    (drawAll (fun (d : Nat) (_ : Unit) => (Except.ok (d + 1) : Except String Nat))
        Canvas.new [((), 10), ((), 20)]).1.drain = [((), 11), ((), 21)] ∧
    (Canvas.new : Canvas Unit Nat).drain = [] :=
  canvas_drain_order Nat Unit Nat String _ (fun p => p.2 + 1) [((), 10), ((), 20)]
    (by intro p hp; fin_cases hp <;> rfl)

/-! ### Claim theorems about the execution loop of `src/sketch.rs` -/

/-- C1: on an iteration whose event batch contains the distinguished reseed input,
the loop draws a fresh seed from the external entropy source (not derived from the
current seed), reinitializes the RNG from it, resets `frame` to 0, and replaces the
sketch by the result of its seed operation on the updated context; for the event
sequence draw → draw → reseed → draw, the third draw observes `frame = 0` and
(absent collision, `entropy 0 ≠ s0`) a `current_seed` different from the original. -/
theorem reseed_resets_frame_and_seed (S E Sh Te : Type)
    (drawF : S → SketchContext → Canvas Sh Te)
    (stepF : S → SketchContext → List WindowEvent → Option S)
    (seedF : S → SketchContext → S) (entropy : Nat → Nat)
    (size s0 : Nat) (s t1 t2 : S) (e1 e2 e3 : List WindowEvent)
    (h1 : e1.any isReseedEvent = false)
    (h2 : e2.any isReseedEvent = false)
    (h3 : e3.any isReseedEvent = true)
    (hs1 : stepF s ⟨⟨size, none, some s0⟩, 0, StdRng.from_seed s0, s0⟩ e1 = some t1)
    (hs2 : stepF t1 ⟨⟨size, none, some s0⟩, 1, StdRng.from_seed s0, s0⟩ e2 = some t2)
    (hcoll : entropy 0 ≠ s0) :
    (sketchRun (pureImpl (E := E) drawF stepF seedF) entropy
        [.batch (okEnv e1), .batch (okEnv e2), .batch (okEnv e3)]
        ⟨size, none, some s0⟩ s).submissions
      = [(⟨⟨size, none, some s0⟩, 0, StdRng.from_seed s0, s0⟩,
           (drawF s ⟨⟨size, none, some s0⟩, 0, StdRng.from_seed s0, s0⟩).drain),
         (⟨⟨size, none, some s0⟩, 1, StdRng.from_seed s0, s0⟩,
           (drawF t1 ⟨⟨size, none, some s0⟩, 1, StdRng.from_seed s0, s0⟩).drain),
         (⟨⟨size, none, some s0⟩, 0, StdRng.from_seed (entropy 0), entropy 0⟩,
           (drawF (seedF t2 ⟨⟨size, none, some s0⟩, 0, StdRng.from_seed (entropy 0),
               entropy 0⟩)
             ⟨⟨size, none, some s0⟩, 0, StdRng.from_seed (entropy 0),
               entropy 0⟩).drain)] ∧
    entropy 0 ≠ s0 := by
  refine ⟨?_, hcoll⟩
  simp [sketchRun, runLoop, reseedCtx, pureImpl, okEnv, h1, h2, h3, hs1, hs2]
  split <;> rfl

/-- C1 witness: a concrete draw → draw → reseed → draw run with configured seed 42
and entropy source constantly 7; the third draw observes frame 0 and seed 7. -/
theorem reseed_resets_frame_and_seed_witness :
    (sketchRun (pureImpl (E := Unit)
        (fun (_ : Unit) _ => (Canvas.new : Canvas Unit Unit))
        (fun _ _ _ => some ()) (fun _ _ => ())) (fun _ => 7)
        [.batch (okEnv []), .batch (okEnv [.other 0]),
         .batch (okEnv [.receivedCharacter 'r'])]
        ⟨100, none, some 42⟩ ()).submissions
      = [(⟨⟨100, none, some 42⟩, 0, StdRng.from_seed 42, 42⟩, []),
         (⟨⟨100, none, some 42⟩, 1, StdRng.from_seed 42, 42⟩, []),
         (⟨⟨100, none, some 42⟩, 0, StdRng.from_seed 7, 7⟩, [])] ∧
    (7 : Nat) ≠ 42 :=
  reseed_resets_frame_and_seed Unit Unit Unit Unit
    (fun _ _ => Canvas.new) (fun _ _ _ => some ()) (fun _ _ => ()) (fun _ => 7)
    100 42 () () () [] [.other 0] [.receivedCharacter 'r'] rfl rfl rfl rfl rfl
    (by decide)

/-- C2: termination and error policy of the run. Clean input-source closure and a
step that yields no continuation are the successful termination paths; every
failure — input polling, reseeding, drawing, submission, step, capture directory
creation, frame saving — terminates the run immediately and unretried with that
error as the run's result; when step yields a continuation and nothing fails, the
run continues with the remaining input. -/
theorem run_termination_errors (S E Sh Te : Type) :
    (∀ (impl : SketchImpl S E Sh Te) (entropy : Nat → Nat) rest ctx (s : S) eIdx,
       runLoop impl entropy (.closed :: rest) ctx s eIdx = ⟨[], [], [], .ok (), ctx⟩) ∧
    (∀ (impl : SketchImpl S E Sh Te) (entropy : Nat → Nat) e rest ctx (s : S) eIdx,
       runLoop impl entropy (.err e :: rest) ctx s eIdx = ⟨[], [], [], .error e, ctx⟩) ∧
    (∀ (impl : SketchImpl S E Sh Te) (entropy : Nat → Nat) env rest ctx (s : S) eIdx e,
       env.events.any isReseedEvent = true →
       impl.seed s (reseedCtx ctx (entropy eIdx)) = .error e →
       runLoop impl entropy (.batch env :: rest) ctx s eIdx
         = ⟨[], [], [], .error e, reseedCtx ctx (entropy eIdx)⟩) ∧
    (∀ (impl : SketchImpl S E Sh Te) (entropy : Nat → Nat) env rest ctx (s : S) eIdx e,
       env.events.any isReseedEvent = false →
       impl.draw s ctx = .error e →
       runLoop impl entropy (.batch env :: rest) ctx s eIdx
         = ⟨[], [], [], .error e, ctx⟩) ∧
    (∀ (impl : SketchImpl S E Sh Te) (entropy : Nat → Nat) env rest ctx (s : S) eIdx e
       (canvas : Canvas Sh Te),
       env.events.any isReseedEvent = false →
       impl.draw s ctx = .ok canvas →
       env.submitRes = .error e →
       runLoop impl entropy (.batch env :: rest) ctx s eIdx
         = ⟨[], [], [], .error e, ctx⟩) ∧
    (∀ (impl : SketchImpl S E Sh Te) (entropy : Nat → Nat) env rest ctx (s : S) eIdx e
       (canvas : Canvas Sh Te),
       env.events.any isReseedEvent = false →
       impl.draw s ctx = .ok canvas →
       env.submitRes = .ok () →
       impl.step s ctx env.events = .error e →
       runLoop impl entropy (.batch env :: rest) ctx s eIdx
         = ⟨[(ctx, canvas.drain)], [], [], .error e, ctx⟩) ∧
    (∀ (impl : SketchImpl S E Sh Te) (entropy : Nat → Nat) env rest ctx (s : S) eIdx e
       (canvas : Canvas Sh Te) (sOpt : Option S) (root : String),
       env.events.any isReseedEvent = false →
       impl.draw s ctx = .ok canvas →
       env.submitRes = .ok () →
       impl.step s ctx env.events = .ok sOpt →
       ctx.cfg.root_frame_filename = some root →
       env.mkdirRes = .error e →
       runLoop impl entropy (.batch env :: rest) ctx s eIdx
         = ⟨[(ctx, canvas.drain)], [], [], .error e, ctx⟩) ∧
    (∀ (impl : SketchImpl S E Sh Te) (entropy : Nat → Nat) env rest ctx (s : S) eIdx e
       (canvas : Canvas Sh Te) (sOpt : Option S) (root : String),
       env.events.any isReseedEvent = false →
       impl.draw s ctx = .ok canvas →
       env.submitRes = .ok () →
       impl.step s ctx env.events = .ok sOpt →
       ctx.cfg.root_frame_filename = some root →
       env.mkdirRes = .ok () →
       env.saveRes = .error e →
       runLoop impl entropy (.batch env :: rest) ctx s eIdx
         = ⟨[(ctx, canvas.drain)], [savesDir root ctx.current_seed], [], .error e, ctx⟩) ∧
    (∀ (impl : SketchImpl S E Sh Te) (entropy : Nat → Nat) env rest ctx (s : S) eIdx
       (canvas : Canvas Sh Te),
       env.events.any isReseedEvent = false →
       impl.draw s ctx = .ok canvas →
       env.submitRes = .ok () →
       impl.step s ctx env.events = .ok none →
       ctx.cfg.root_frame_filename = none →
       runLoop impl entropy (.batch env :: rest) ctx s eIdx
         = ⟨[(ctx, canvas.drain)], [], [], .ok (), { ctx with frame := ctx.frame + 1 }⟩) ∧
    (∀ (impl : SketchImpl S E Sh Te) (entropy : Nat → Nat) env rest ctx (s s' : S) eIdx
       (canvas : Canvas Sh Te),
       env.events.any isReseedEvent = false →
       impl.draw s ctx = .ok canvas →
       env.submitRes = .ok () →
       impl.step s ctx env.events = .ok (some s') →
       ctx.cfg.root_frame_filename = none →
       (runLoop impl entropy (.batch env :: rest) ctx s eIdx).result
         = (runLoop impl entropy rest { ctx with frame := ctx.frame + 1 } s' eIdx).result) := by
  refine ⟨?_, ?_, ?_, ?_, ?_, ?_, ?_, ?_, ?_, ?_⟩
  · intro impl entropy rest ctx s eIdx
    simp [runLoop]
  · intro impl entropy e rest ctx s eIdx
    simp [runLoop]
  · intro impl entropy env rest ctx s eIdx e hre hseed
    simp [runLoop, hre, hseed]
  · intro impl entropy env rest ctx s eIdx e hre hdraw
    simp [runLoop, hre, hdraw]
  · intro impl entropy env rest ctx s eIdx e canvas hre hdraw hsub
    simp [runLoop, hre, hdraw, hsub]
  · intro impl entropy env rest ctx s eIdx e canvas hre hdraw hsub hstep
    simp [runLoop, hre, hdraw, hsub, hstep]
  · intro impl entropy env rest ctx s eIdx e canvas sOpt root hre hdraw hsub hstep hroot hmk
    simp [runLoop, hre, hdraw, hsub, hstep, hroot, hmk]
  · intro impl entropy env rest ctx s eIdx e canvas sOpt root hre hdraw hsub hstep hroot hmk hsv
    simp [runLoop, hre, hdraw, hsub, hstep, hroot, hmk, hsv]
  · intro impl entropy env rest ctx s eIdx canvas hre hdraw hsub hstep hroot
    simp [runLoop, hre, hdraw, hsub, hstep, hroot]
  · intro impl entropy env rest ctx s s' eIdx canvas hre hdraw hsub hstep hroot
    simp [runLoop, hre, hdraw, hsub, hstep, hroot]

/-- C2 witness: concrete one-iteration runs exercising each termination and
error channel of `run_termination_errors`. -/
theorem run_termination_errors_witness :
    (runLoop (⟨fun _ _ => .ok ⟨[]⟩, fun _ _ _ => .ok (some ()), fun _ _ => .ok ()⟩ :
          SketchImpl Unit String Unit Unit) (fun _ => 5) [.closed]
        ⟨⟨1, none, some 3⟩, 0, StdRng.from_seed 3, 3⟩ () 0
      = ⟨[], [], [], .ok (), ⟨⟨1, none, some 3⟩, 0, StdRng.from_seed 3, 3⟩⟩) ∧
    (runLoop (⟨fun _ _ => .ok ⟨[]⟩, fun _ _ _ => .ok (some ()), fun _ _ => .ok ()⟩ :
          SketchImpl Unit String Unit Unit) (fun _ => 5) [.err "e"]
        ⟨⟨1, none, some 3⟩, 0, StdRng.from_seed 3, 3⟩ () 0
      = ⟨[], [], [], .error "e", ⟨⟨1, none, some 3⟩, 0, StdRng.from_seed 3, 3⟩⟩) ∧
    (runLoop (⟨fun _ _ => .ok ⟨[]⟩, fun _ _ _ => .ok (some ()), fun _ _ => .error "sd"⟩ :
          SketchImpl Unit String Unit Unit) (fun _ => 5)
        [.batch (okEnv [.receivedCharacter 'r'])]
        ⟨⟨1, none, some 3⟩, 0, StdRng.from_seed 3, 3⟩ () 0
      = ⟨[], [], [], .error "sd",
          reseedCtx ⟨⟨1, none, some 3⟩, 0, StdRng.from_seed 3, 3⟩ 5⟩) ∧
    (runLoop (⟨fun _ _ => .error "dr", fun _ _ _ => .ok (some ()), fun _ _ => .ok ()⟩ :
          SketchImpl Unit String Unit Unit) (fun _ => 5) [.batch (okEnv [])]
        ⟨⟨1, none, some 3⟩, 0, StdRng.from_seed 3, 3⟩ () 0
      = ⟨[], [], [], .error "dr", ⟨⟨1, none, some 3⟩, 0, StdRng.from_seed 3, 3⟩⟩) ∧
    (runLoop (⟨fun _ _ => .ok ⟨[]⟩, fun _ _ _ => .ok (some ()), fun _ _ => .ok ()⟩ :
          SketchImpl Unit String Unit Unit) (fun _ => 5)
        [.batch ⟨[], .error "sb", .ok (), .ok ()⟩]
        ⟨⟨1, none, some 3⟩, 0, StdRng.from_seed 3, 3⟩ () 0
      = ⟨[], [], [], .error "sb", ⟨⟨1, none, some 3⟩, 0, StdRng.from_seed 3, 3⟩⟩) ∧
    (runLoop (⟨fun _ _ => .ok ⟨[]⟩, fun _ _ _ => .error "st", fun _ _ => .ok ()⟩ :
          SketchImpl Unit String Unit Unit) (fun _ => 5) [.batch (okEnv [])]
        ⟨⟨1, none, some 3⟩, 0, StdRng.from_seed 3, 3⟩ () 0
      = ⟨[(⟨⟨1, none, some 3⟩, 0, StdRng.from_seed 3, 3⟩, [])], [], [], .error "st",
          ⟨⟨1, none, some 3⟩, 0, StdRng.from_seed 3, 3⟩⟩) ∧
    (runLoop (⟨fun _ _ => .ok ⟨[]⟩, fun _ _ _ => .ok (some ()), fun _ _ => .ok ()⟩ :
          SketchImpl Unit String Unit Unit) (fun _ => 5)
        [.batch ⟨[], .ok (), .error "mk", .ok ()⟩]
        ⟨⟨1, some "o", some 3⟩, 0, StdRng.from_seed 3, 3⟩ () 0
      = ⟨[(⟨⟨1, some "o", some 3⟩, 0, StdRng.from_seed 3, 3⟩, [])], [], [], .error "mk",
          ⟨⟨1, some "o", some 3⟩, 0, StdRng.from_seed 3, 3⟩⟩) ∧
    (runLoop (⟨fun _ _ => .ok ⟨[]⟩, fun _ _ _ => .ok (some ()), fun _ _ => .ok ()⟩ :
          SketchImpl Unit String Unit Unit) (fun _ => 5)
        [.batch ⟨[], .ok (), .ok (), .error "sv"⟩]
        ⟨⟨1, some "o", some 3⟩, 0, StdRng.from_seed 3, 3⟩ () 0
      = ⟨[(⟨⟨1, some "o", some 3⟩, 0, StdRng.from_seed 3, 3⟩, [])], [savesDir "o" 3], [],
          .error "sv", ⟨⟨1, some "o", some 3⟩, 0, StdRng.from_seed 3, 3⟩⟩) ∧
    (runLoop (⟨fun _ _ => .ok ⟨[]⟩, fun _ _ _ => .ok none, fun _ _ => .ok ()⟩ :
          SketchImpl Unit String Unit Unit) (fun _ => 5) [.batch (okEnv [])]
        ⟨⟨1, none, some 3⟩, 0, StdRng.from_seed 3, 3⟩ () 0
      = ⟨[(⟨⟨1, none, some 3⟩, 0, StdRng.from_seed 3, 3⟩, [])], [], [], .ok (),
          ⟨⟨1, none, some 3⟩, 1, StdRng.from_seed 3, 3⟩⟩) ∧
    ((runLoop (⟨fun _ _ => .ok ⟨[]⟩, fun _ _ _ => .ok (some ()), fun _ _ => .ok ()⟩ :
          SketchImpl Unit String Unit Unit) (fun _ => 5) [.batch (okEnv []), .closed]
        ⟨⟨1, none, some 3⟩, 0, StdRng.from_seed 3, 3⟩ () 0).result
      = (runLoop (⟨fun _ _ => .ok ⟨[]⟩, fun _ _ _ => .ok (some ()), fun _ _ => .ok ()⟩ :
          SketchImpl Unit String Unit Unit) (fun _ => 5) [.closed]
        ⟨⟨1, none, some 3⟩, 1, StdRng.from_seed 3, 3⟩ () 0).result) := by
  have h := run_termination_errors Unit String Unit Unit
  exact ⟨h.1 _ _ _ _ _ _,
         h.2.1 _ _ _ _ _ _ _,
         h.2.2.1 _ _ _ _ _ _ _ _ rfl rfl,
         h.2.2.2.1 _ _ _ _ _ _ _ _ rfl rfl,
         h.2.2.2.2.1 _ _ _ _ _ _ _ _ _ rfl rfl rfl,
         h.2.2.2.2.2.1 _ _ _ _ _ _ _ _ _ rfl rfl rfl rfl,
         h.2.2.2.2.2.2.1 _ _ _ _ _ _ _ _ _ _ _ rfl rfl rfl rfl rfl rfl,
         h.2.2.2.2.2.2.2.1 _ _ _ _ _ _ _ _ _ _ _ rfl rfl rfl rfl rfl rfl rfl,
         h.2.2.2.2.2.2.2.2.1 _ _ _ _ _ _ _ _ rfl rfl rfl rfl rfl,
         h.2.2.2.2.2.2.2.2.2 _ _ _ _ _ _ _ _ _ rfl rfl rfl rfl rfl⟩

/-- C4: `frame` starts at 0 and increases by exactly 1 per completed iteration (a
non-reseed iteration with all external calls succeeding continues the run with
`frame + 1` and nothing else of the context changed); and for the end-to-end
configuration `seed = 42`, no capture, a sketch drawing a constant queue and never
reseeding, after 3 completed iterations the frame counter is 3, the seed is still
42, and exactly 3 draw-queues were submitted, the same queue each time, drawn at
frames 0, 1, 2. -/
theorem frame_counting (S E Sh Te : Type) :
    (∀ (impl : SketchImpl S E Sh Te) (entropy : Nat → Nat) (env : IterEnv E)
       (rest : List (CycleOutcome E)) (ctx : SketchContext) (s s' : S) (eIdx : Nat)
       (canvas : Canvas Sh Te),
       env.events.any isReseedEvent = false →
       impl.draw s ctx = .ok canvas →
       env.submitRes = .ok () →
       impl.step s ctx env.events = .ok (some s') →
       ctx.cfg.root_frame_filename = none →
       runLoop impl entropy (.batch env :: rest) ctx s eIdx
         = { submissions := (ctx, canvas.drain) ::
               (runLoop impl entropy rest { ctx with frame := ctx.frame + 1 } s' eIdx).submissions,
             dirs := (runLoop impl entropy rest { ctx with frame := ctx.frame + 1 } s' eIdx).dirs,
             captures := (runLoop impl entropy rest { ctx with frame := ctx.frame + 1 } s' eIdx).captures,
             result := (runLoop impl entropy rest { ctx with frame := ctx.frame + 1 } s' eIdx).result,
             finalCtx := (runLoop impl entropy rest { ctx with frame := ctx.frame + 1 } s' eIdx).finalCtx }) ∧
    (∀ (q : Canvas Sh Te) (stepF : S → SketchContext → List WindowEvent → Option S)
       (seedF : S → SketchContext → S) (entropy : Nat → Nat) (size : Nat) (s t1 t2 : S)
       (e1 e2 e3 : List WindowEvent),
       e1.any isReseedEvent = false →
       e2.any isReseedEvent = false →
       e3.any isReseedEvent = false →
       stepF s ⟨⟨size, none, some 42⟩, 0, StdRng.from_seed 42, 42⟩ e1 = some t1 →
       stepF t1 ⟨⟨size, none, some 42⟩, 1, StdRng.from_seed 42, 42⟩ e2 = some t2 →
       (sketchRun (pureImpl (E := E) (fun _ _ => q) stepF seedF) entropy
           [.batch (okEnv e1), .batch (okEnv e2), .batch (okEnv e3)]
           ⟨size, none, some 42⟩ s).finalCtx.frame = 3 ∧
       (sketchRun (pureImpl (E := E) (fun _ _ => q) stepF seedF) entropy
           [.batch (okEnv e1), .batch (okEnv e2), .batch (okEnv e3)]
           ⟨size, none, some 42⟩ s).finalCtx.current_seed = 42 ∧
       (sketchRun (pureImpl (E := E) (fun _ _ => q) stepF seedF) entropy
           [.batch (okEnv e1), .batch (okEnv e2), .batch (okEnv e3)]
           ⟨size, none, some 42⟩ s).submissions.map
           (fun p => (p.1.frame, p.1.current_seed, p.2))
         = [(0, 42, q.drain), (1, 42, q.drain), (2, 42, q.drain)] ∧
       (sketchRun (pureImpl (E := E) (fun _ _ => q) stepF seedF) entropy
           [.batch (okEnv e1), .batch (okEnv e2), .batch (okEnv e3)]
           ⟨size, none, some 42⟩ s).result = .ok ()) := by
  constructor
  · intro impl entropy env rest ctx s s' eIdx canvas hre hdraw hsub hstep hroot
    simp [runLoop, hre, hdraw, hsub, hstep, hroot]
  · intro q stepF seedF entropy size s t1 t2 e1 e2 e3 h1 h2 h3 hs1 hs2
    refine ⟨?_, ?_, ?_, ?_⟩ <;>
      simp [sketchRun, runLoop, pureImpl, okEnv, h1, h2, h3, hs1, hs2] <;>
      split <;> rfl

/-- C4 witness: a concrete single completed iteration carries the run on with the
frame counter incremented by exactly 1, and a concrete three-iteration run with
seed 42 and a constant single-entry draw queue ends at frame 3 with three
submissions. -/
theorem frame_counting_witness :
    (runLoop (⟨fun _ _ => .ok ⟨[((), 9)]⟩, fun _ _ _ => .ok (some ()),
          fun _ _ => .ok ()⟩ : SketchImpl Unit Unit Unit Nat) (fun _ => 5)
        [.batch (okEnv []), .closed] ⟨⟨1, none, some 3⟩, 0, StdRng.from_seed 3, 3⟩ () 0
      = ⟨[(⟨⟨1, none, some 3⟩, 0, StdRng.from_seed 3, 3⟩, [((), 9)])], [], [], .ok (),
          ⟨⟨1, none, some 3⟩, 1, StdRng.from_seed 3, 3⟩⟩) ∧
    (sketchRun (pureImpl (E := Unit) (fun (_ : Unit) _ => (⟨[((), 9)]⟩ : Canvas Unit Nat))
        (fun _ _ _ => some ()) (fun _ _ => ())) (fun _ => 5)
        [.batch (okEnv []), .batch (okEnv []), .batch (okEnv [])]
        ⟨1, none, some 42⟩ ()).finalCtx.frame = 3 ∧
    (sketchRun (pureImpl (E := Unit) (fun (_ : Unit) _ => (⟨[((), 9)]⟩ : Canvas Unit Nat))
        (fun _ _ _ => some ()) (fun _ _ => ())) (fun _ => 5)
        [.batch (okEnv []), .batch (okEnv []), .batch (okEnv [])]
        ⟨1, none, some 42⟩ ()).finalCtx.current_seed = 42 ∧
    (sketchRun (pureImpl (E := Unit) (fun (_ : Unit) _ => (⟨[((), 9)]⟩ : Canvas Unit Nat))
        (fun _ _ _ => some ()) (fun _ _ => ())) (fun _ => 5)
        [.batch (okEnv []), .batch (okEnv []), .batch (okEnv [])]
        ⟨1, none, some 42⟩ ()).submissions.map
        (fun p => (p.1.frame, p.1.current_seed, p.2))
      = [(0, 42, [((), 9)]), (1, 42, [((), 9)]), (2, 42, [((), 9)])] ∧
    (sketchRun (pureImpl (E := Unit) (fun (_ : Unit) _ => (⟨[((), 9)]⟩ : Canvas Unit Nat))
        (fun _ _ _ => some ()) (fun _ _ => ())) (fun _ => 5)
        [.batch (okEnv []), .batch (okEnv []), .batch (okEnv [])]
        ⟨1, none, some 42⟩ ()).result = .ok () :=
  ⟨(frame_counting Unit Unit Unit Nat).1 _ _ _ _ _ _ _ _ _ rfl rfl rfl rfl rfl,
   (frame_counting Unit Unit Unit Nat).2 ⟨[((), 9)]⟩ (fun _ _ _ => some ())
    (fun _ _ => ()) (fun _ => 5) 1 () () () [] [] [] rfl rfl rfl rfl rfl⟩

/-- C6 counterexample: with capture root `"out"` and seed 42, the directory passed
to the filesystem and the frame-save call is `"out/            42/"` — the seed is
right-aligned in a 14-character space-padded field — which is NOT the plain
`{capture_root}/{seed}/` path `"out/42/"` the claim states. -/
theorem capture_path_counterexample :
    (sketchRun (pureImpl (E := Unit)
        (fun (_ : Unit) _ => (Canvas.new : Canvas Unit Unit))
        (fun _ _ _ => none) (fun _ _ => ())) (fun _ => 0)
        [.batch (okEnv [])] ⟨100, some "out", some 42⟩ ()).captures
      = [("out/            42/", 0)] ∧
    "out/            42/" ≠ "out" ++ "/" ++ toString (42 : Nat) ++ "/" := by
  exact ⟨by decide, by decide⟩

/-- C6 (amended): when capture is configured, each completed frame's capture
directory path equals `{capture_root}/{current seed, right-aligned in a minimum
width of 14 characters, space-padded}/`; the directory creation call is issued
anew for every frame (idempotent repetition), and the backend is instructed to
persist the just-rendered frame indexed by the current `frame` value. -/
theorem capture_path_per_frame (S E Sh Te : Type)
    (q : Canvas Sh Te) (stepF : S → SketchContext → List WindowEvent → Option S)
    (seedF : S → SketchContext → S) (entropy : Nat → Nat)
    (size s0 : Nat) (root : String) (s t1 : S) (e1 e2 : List WindowEvent)
    (h1 : e1.any isReseedEvent = false)
    (h2 : e2.any isReseedEvent = false)
    (hs1 : stepF s ⟨⟨size, some root, some s0⟩, 0, StdRng.from_seed s0, s0⟩ e1 = some t1) :
    (sketchRun (pureImpl (E := E) (fun _ _ => q) stepF seedF) entropy
        [.batch (okEnv e1), .batch (okEnv e2)] ⟨size, some root, some s0⟩ s).dirs
      = [savesDir root s0, savesDir root s0] ∧
    (sketchRun (pureImpl (E := E) (fun _ _ => q) stepF seedF) entropy
        [.batch (okEnv e1), .batch (okEnv e2)] ⟨size, some root, some s0⟩ s).captures
      = [(savesDir root s0, 0), (savesDir root s0, 1)] ∧
    savesDir root s0 = root ++ "/" ++ pad14 (toString s0) ++ "/" := by
  refine ⟨?_, ?_, rfl⟩ <;>
    simp [sketchRun, runLoop, pureImpl, okEnv, h1, h2, hs1] <;>
    split <;> rfl

/-- C6 (amended) witness: a concrete two-iteration captured run; both frames create
the same space-padded seed directory and save frames 0 and 1. -/
theorem capture_path_per_frame_witness :
    (sketchRun (pureImpl (E := Unit)
        (fun (_ : Unit) _ => (Canvas.new : Canvas Unit Unit))
        (fun _ _ _ => some ()) (fun _ _ => ())) (fun _ => 5)
        [.batch (okEnv []), .batch (okEnv [])] ⟨1, some "out", some 42⟩ ()).dirs
      = ["out/            42/", "out/            42/"] ∧
    (sketchRun (pureImpl (E := Unit)
        (fun (_ : Unit) _ => (Canvas.new : Canvas Unit Unit))
        (fun _ _ _ => some ()) (fun _ _ => ())) (fun _ => 5)
        [.batch (okEnv []), .batch (okEnv [])] ⟨1, some "out", some 42⟩ ()).captures
      = [("out/            42/", 0), ("out/            42/", 1)] ∧
    savesDir "out" 42 = "out" ++ "/" ++ pad14 (toString 42) ++ "/" := by
  have h := capture_path_per_frame Unit Unit Unit Unit Canvas.new
    (fun _ _ _ => some ()) (fun _ _ => ()) (fun _ => 5) 1 42 "out" () () [] []
    rfl rfl rfl
  exact ⟨h.1.trans (by decide), h.2.1.trans (by decide), h.2.2⟩

end Valora
